import Mathlib

/-!
# Verification of the telegram-shop-bot receipt pipeline

Shallow embedding of the receipt-validation pipeline and cart logic of the
telegram-shop-bot repository, together with proofs and refutations of the
specification claims.

The embedding follows the Python sources:
* `src/receipt_processor/image_processor.py` — OCR/classifier pipeline
  (`is_receipt`, `extract_date_from_receipt`, `analyze_receipt`,
  `save_receipt_file`, `process_image`);
* `src/receipt_processor/receipt_processor.py` — the alternative
  `process_receipt` extraction stage;
* `src/notification/email_sender.py` and `src/shop/notifications.py` —
  email dispatch;
* `src/shop/main.py` — the shop receipt handler `process_payment_receipt`
  and the cart callbacks;
* `src/shop/models.py` — the `Order` row (creation date, payment_status).

External effects (LLM calls, OCR, the filesystem, SMTP) are modelled as
oracle inputs: each call site receives the value the external service
would have produced, with `Except` used where the Python call can raise.
The filesystem is a list of paths threaded through the state-changing
functions.  Python strings are modelled as `List Char` so that every
definition evaluates inside the kernel.
-/

namespace ShopBot

/-- Python strings, modelled as character lists. -/
abbrev Str := List Char

/-- Python `str.lower()` for the alphabets appearing in this codebase
(ASCII and Cyrillic). -/
def pyLowerChar (c : Char) : Char :=
  if 'A' ≤ c ∧ c ≤ 'Z' then Char.ofNat (c.toNat + 32)
  else if 'А' ≤ c ∧ c ≤ 'Я' then Char.ofNat (c.toNat + 32)
  else if c = 'Ё' then 'ё'
  else c

/-- Python `str.lower()`. -/
def pyLower (s : Str) : Str := s.map pyLowerChar

/-- The whitespace characters `str.strip()` removes (the ones that can
occur in the data handled here). -/
def isPyWhitespace (c : Char) : Bool :=
  c = ' ' || c = '\t' || c = '\n' || c = '\r'

/-- Python `str.strip()`. -/
def pyStrip (s : Str) : Str :=
  ((s.dropWhile isPyWhitespace).reverse.dropWhile isPyWhitespace).reverse

/-- Python `str.split(sep)` for a one-character separator (empty fields are
kept; `''.split(sep)` is `['']`). -/
def pySplit (sep : Char) (s : Str) : List Str :=
  List.splitOn sep s

/-- Python `str.endswith(suffix)`. -/
def pyEndsWith (s suf : Str) : Bool :=
  List.isSuffixOf suf s

/-- Python `needle in hay` on strings (substring containment). -/
def pyContains (hay needle : Str) : Bool :=
  hay.tails.any (fun t => List.isPrefixOf needle t)

/-- Value of a digit string (callers check `isDigit` first). -/
def digitsToNat (s : Str) : Nat :=
  s.foldl (fun n c => n * 10 + (c.toNat - 48)) 0

/-- A civil date, as compared by Python `datetime.date` equality
(`receipt_date != current_date` compares the (day, month, year) triple). -/
structure Date where
  day : Nat
  month : Nat
  year : Nat
deriving DecidableEq, Repr

/-- Leap-year rule used by `datetime` date validation. -/
def isLeap (y : Nat) : Bool :=
  (y % 4 = 0 && y % 100 ≠ 0) || y % 400 = 0

/-- Number of days in a month, for strptime's calendar validation. -/
def daysInMonth (m y : Nat) : Nat :=
  if m = 2 then (if isLeap y then 29 else 28)
  else if m = 4 ∨ m = 6 ∨ m = 9 ∨ m = 11 then 30
  else 31

/-- A calendar-valid date (what `datetime.strptime` accepts). -/
def Date.valid (d : Date) : Bool :=
  1 ≤ d.month && d.month ≤ 12 && 1 ≤ d.day && d.day ≤ daysInMonth d.month d.year

/-- `datetime.strptime(s, '%d.%m.%Y').date()` as used in
`extract_date_from_receipt` (image_processor.py line 48): dot-separated
day.month.year with one- or two-digit day and month and four-digit year,
validated against the calendar; `none` models the `ValueError` branch.
(CPython additionally accepts a space-padded day; that variant does not
occur in the replies modelled here.) -/
def strptimeDMY (s : Str) : Option Date :=
  match pySplit '.' s with
  | [d, m, y] =>
    if d.length = 0 || d.length > 2 || m.length = 0 || m.length > 2 ||
        y.length ≠ 4 then none
    else if d.all Char.isDigit && m.all Char.isDigit && y.all Char.isDigit then
      let date : Date := ⟨digitsToNat d, digitsToNat m, digitsToNat y⟩
      if date.valid then some date else none
    else none
  | _ => none

/-- An external call that either returns a value or raises (the `error`
payload is `str(e)`). -/
abbrev Call (α : Type) := Except Str α

/-! ## Document classifier (`image_processor.py`) -/

/-- The `true|reason` / `false|reason` parse of the validity classifier's
reply (image_processor.py lines 86‑92): strip and lower-case the reply,
split on `|`; the verdict is whether the text before the first `|` is
literally `true`; `reason` is `parts[1]` when a delimiter is present, else
Python `None`. -/
def parseReceiptReply (reply : Str) : Bool × Option Str :=
  let result := pyLower (pyStrip reply)
  let parts := pySplit '|' result
  (parts.headD [] = "true".toList, if parts.length > 1 then parts.get? 1 else none)

/-- `is_receipt` (image_processor.py lines 56‑103): returns the parsed
verdict; an exception from the LLM call is caught and yields `false`. -/
def is_receipt (apiReply : Call Str) : Bool :=
  match apiReply with
  | .error _ => false
  | .ok reply => (parseReceiptReply reply).1

/-- `extract_date_from_receipt` (image_processor.py lines 26‑54): strip the
reply; the sentinel `not_found` and any strptime failure give `None`; an
exception from the LLM call is caught and yields `None`. -/
def extract_date_from_receipt (apiReply : Call Str) : Option Date :=
  match apiReply with
  | .error _ => none
  | .ok reply =>
    let dateStr := pyStrip reply
    if dateStr = "not_found".toList then none
    else strptimeDMY dateStr

/-- Which classifier sub-calls a run of `analyze_receipt` performed. -/
inductive ClassifierCall
  | validityCheck
  | dateExtraction
deriving DecidableEq, Repr

/-- `analyze_receipt` (image_processor.py lines 105‑125), instrumented with
the list of classifier calls it makes.  On an invalid document it returns
the fixed message (the classifier's reason is only logged, never returned)
and does not call the date extraction. -/
def analyze_receipt_traced (validityReply dateReply : Call Str) :
    (Bool × Option Date × Str) × List ClassifierCall :=
  if !is_receipt validityReply then
    ((false, none, "Отправленный документ не является платежным чеком".toList),
      [.validityCheck])
  else
    match extract_date_from_receipt dateReply with
    | none =>
        ((false, none, "Не удалось определить дату в чеке".toList),
          [.validityCheck, .dateExtraction])
    | some d =>
        ((true, some d, "Чек успешно проверен".toList),
          [.validityCheck, .dateExtraction])

/-- `analyze_receipt`'s returned triple `(is_valid, receipt_date, message)`. -/
def analyze_receipt (validityReply dateReply : Call Str) :
    Bool × Option Date × Str :=
  (analyze_receipt_traced validityReply dateReply).1

/-! ## Filesystem model -/

/-- The filesystem: the set of existing paths, as a list. -/
abbrev Fs := List Str

/-- `os.remove` (and the guarding `os.path.exists` check). -/
def removePath (fs : Fs) (p : Str) : Fs :=
  fs.filter (fun q => q ≠ p)

/-- `shutil.rmtree`: removes the directory and everything under it. -/
def removeTree (fs : Fs) (d : Str) : Fs :=
  fs.filter (fun q => q ≠ d && !List.isPrefixOf (d ++ "/".toList) q)

/-- The extension part of `os.path.splitext` (the suffix from the last dot
of the basename, leading dots excluded). -/
def splitextExt (path : Str) : Str :=
  let base := (pySplit '/' path).getLastD []
  let lead := base.takeWhile (fun c => c = '.')
  let core := base.drop lead.length
  if core.contains '.' then
    '.' :: (core.reverse.takeWhile (fun c => c ≠ '.')).reverse
  else []

/-! ## `save_receipt_file` (image_processor.py lines 127‑158) -/

/-- The archival name `temp_receipts/receipt_{user_id}_{timestamp}{ext}`
(the `temp_receipts` directory lives under the working directory; the
`'%Y%m%d_%H%M%S'` rendering of the Moscow timestamp is abstracted as the
decimal rendering of the model timestamp). -/
def receiptArchiveName (uid : Nat) (t : Nat) (ext : Str) : Str :=
  "temp_receipts/receipt_".toList ++ (toString uid).toList ++
    "_".toList ++ (toString t).toList ++ ext

/-- Seconds in the fixed 24-hour retention window
(`timedelta(hours=24)`). -/
def retentionSeconds : Nat := 24 * 3600

/-- `save_receipt_file`: copy the original file into `temp_receipts` under
the archival name and return it with the expiration timestamp
`moscow_time + 24h`; any exception in the body is caught and yields
`(None, None)` with no copy (`saveOk` is the oracle for the file
operations succeeding).  Time is in seconds. -/
def save_receipt_file (originalPath : Str) (uid : Nat) (moscowTime : Nat)
    (saveOk : Bool) (fs : Fs) : Option (Str × Nat) × Fs :=
  if saveOk then
    let ext := splitextExt originalPath
    let newPath := receiptArchiveName uid moscowTime ext
    (some (newPath, moscowTime + retentionSeconds), newPath :: fs)
  else (none, fs)

/-! ## `process_image` (image_processor.py lines 160‑263) -/

/-- Oracle inputs for one run of `process_image`: the values its external
calls produce. -/
structure PipelineEnv where
  /-- `get_moscow_time()` at archival time, in seconds. -/
  moscowTime : Nat
  /-- The fresh directory name `tempfile.mkdtemp()` returns. -/
  tempDirName : Str
  /-- The PDF branch's inner `try` (`convert_from_path`, the page save and
  re-open): number of pages, or the raised error.  Page files written by
  the converter live under the temp directory. -/
  pdfPages : Call Nat
  /-- `Image.open(image_path)` on the non-PDF branch. -/
  imageOpen : Call Unit
  /-- The grayscale/sharpen normalization (lines 221‑222). -/
  imgNormalize : Call Unit
  /-- `pytesseract.image_to_string(img, lang='rus')`. -/
  ocrRus : Call Str
  /-- `pytesseract.image_to_string(img)` (generic locale). -/
  ocrGeneric : Call Str
  /-- The validity classifier's reply. -/
  validityReply : Call Str
  /-- The date-extraction reply. -/
  dateReply : Call Str
  /-- Whether `save_receipt_file`'s file operations succeed. -/
  saveOk : Bool

/-- The 4-tuple `(success, receipt_date, receipt_path, message)` that
`process_image` returns. -/
structure ProcOutcome where
  success : Bool
  receipt_date : Option Date
  receipt_path : Option Str
  message : Str
deriving DecidableEq, Repr

/-- The state of a `process_image` run when control reaches the `finally`
block: the outcome, the filesystem, and the temporaries created
(`temp_dir`, `temp_img_path`). -/
structure ImageBodyResult where
  outcome : ProcOutcome
  fs : Fs
  tempDir : Option Str
  tempImg : Option Str
deriving Repr

/-- A rejection 4-tuple `(False, None, None, message)`. -/
def rejectWith (message : Str) : ProcOutcome :=
  ⟨false, none, none, message⟩

/-- The outer `except` handler of `process_image` (lines 249‑251). -/
def fileErrorMsg (e : Str) : Str :=
  "Ошибка обработки файла: ".toList ++ e

/-- The tail of `process_image` once OCR text is in hand (lines 234‑247):
text-empty check, `analyze_receipt`, `save_receipt_file`. -/
def process_image_textStage (imagePath : Str) (uid moscowTime : Nat)
    (validityReply dateReply : Call Str) (saveOk : Bool)
    (fs : Fs) (tempDir tempImg : Option Str) (text : Str) : ImageBodyResult :=
  if (pyStrip text).isEmpty then
    ⟨rejectWith "Не удалось распознать текст на изображении".toList,
      fs, tempDir, tempImg⟩
  else
    let triple := analyze_receipt validityReply dateReply
    if !triple.1 then
      ⟨rejectWith triple.2.2, fs, tempDir, tempImg⟩
    else
      let sv := save_receipt_file imagePath uid moscowTime saveOk fs
      match sv.1 with
      | none =>
          ⟨rejectWith "Ошибка сохранения файла чека".toList,
            sv.2, tempDir, tempImg⟩
      | some pe =>
          ⟨⟨true, triple.2.1, some pe.1,
              "Чек успешно проверен".toList⟩,
            sv.2, tempDir, tempImg⟩

/-- The pipeline from the point where the image is open (line 220 on):
normalization, OCR with the generic-locale retry on empty text, then
`process_image_textStage`.  Exceptions of the normalization and OCR calls
reach the outer handler; the OCR calls are not individually guarded in
this function. -/
def process_image_afterOpen (imagePath : Str) (uid : Nat) (env : PipelineEnv)
    (fs : Fs) (tempDir tempImg : Option Str) : ImageBodyResult :=
  match env.imgNormalize with
  | .error e => ⟨rejectWith (fileErrorMsg e), fs, tempDir, tempImg⟩
  | .ok _ =>
    match env.ocrRus with
    | .error e => ⟨rejectWith (fileErrorMsg e), fs, tempDir, tempImg⟩
    | .ok rusText =>
      let textCall : Call Str :=
        if (pyStrip rusText).isEmpty then env.ocrGeneric else .ok rusText
      match textCall with
      | .error e => ⟨rejectWith (fileErrorMsg e), fs, tempDir, tempImg⟩
      | .ok text =>
          process_image_textStage imagePath uid env.moscowTime
            env.validityReply env.dateReply env.saveOk fs tempDir tempImg text

/-- The body of `process_image` up to the `finally` block: existence check,
PDF/image dispatch, then `process_image_afterOpen`. -/
def process_image_body (imagePath : Str) (uid : Nat) (env : PipelineEnv)
    (fs0 : Fs) : ImageBodyResult :=
  if !fs0.contains imagePath then
    ⟨rejectWith "Файл не найден".toList, fs0, none, none⟩
  else
    let isPdf := pyEndsWith (pyLower imagePath) ".pdf".toList
    if isPdf then
      let tempDir := env.tempDirName
      let fs1 := tempDir :: fs0
      match env.pdfPages with
      | .error e =>
          let msg :=
            if pyContains (pyLower e) "poppler".toList then
              "Для обработки PDF требуется установка Poppler".toList
            else "Ошибка обработки PDF документа: ".toList ++ e
          ⟨rejectWith msg, fs1, some tempDir, none⟩
      | .ok nPages =>
          if nPages = 0 then
            ⟨rejectWith "Не удалось обработать PDF документ".toList,
              fs1, some tempDir, none⟩
          else
            let tempImg := tempDir ++ "/converted.jpg".toList
            process_image_afterOpen imagePath uid env (tempImg :: fs1)
              (some tempDir) (some tempImg)
    else
      match env.imageOpen with
      | .error e => ⟨rejectWith (fileErrorMsg e), fs0, none, none⟩
      | .ok _ => process_image_afterOpen imagePath uid env fs0 none none

/-- `process_image`: run the body, then the `finally` block (lines
253‑263), which removes the converted image file and the temporary
directory when they were created. -/
def process_image (imagePath : Str) (uid : Nat) (env : PipelineEnv)
    (fs0 : Fs) : ProcOutcome × Fs :=
  let b := process_image_body imagePath uid env fs0
  let fs1 := match b.tempImg with
    | some p => removePath b.fs p
    | none => b.fs
  let fs2 := match b.tempDir with
    | some d => removeTree fs1 d
    | none => fs1
  (b.outcome, fs2)

/-! ## `process_receipt`'s OCR stage (receipt_processor.py lines 94‑108) -/

/-- The text-extraction stage of `process_receipt`: try the Russian-locale
OCR inside a `try`; on empty text call the generic OCR (still inside the
`try`); on any exception the `except` handler calls the generic OCR.
`ocrGen1`/`ocrGen2` are the first and second generic-locale invocations;
an error escaping both reaches the outer handler of `process_receipt`. -/
def process_receipt_ocr (ocrRus ocrGen1 ocrGen2 : Call Str) : Call Str :=
  match ocrRus with
  | .error _ => ocrGen1
  | .ok rusText =>
    if (pyStrip rusText).isEmpty then
      match ocrGen1 with
      | .ok genText => .ok genText
      | .error _ => ocrGen2
    else .ok rusText

/-- The empty-text check that follows (receipt_processor.py lines
104‑108): empty text is returned as a `success=False` dictionary value,
never raised. -/
def process_receipt_textOutcome (text : Str) : Option Str :=
  if (pyStrip text).isEmpty then
    some "Не удалось распознать текст на изображении".toList
  else none

/-! ## Email dispatch (`email_sender.py`, `shop/notifications.py`) -/

/-- Python truthiness of an optional string (`if text_content:`). -/
def pyTruthy (s : Option Str) : Bool :=
  match s with
  | none => false
  | some t => !t.isEmpty

/-- `create_order_email_template` (email_sender.py lines 17‑42): a
non-empty HTML document built from the order details (content abstracted;
only its non-emptiness matters to the dispatch logic). -/
def create_order_email_template (_orderDetails : Unit) : Str :=
  "<div>order details</div>".toList

/-- `send_email` (email_sender.py lines 44‑89): `False` when the
`YANDEX_PASSWORD` credential is unset; `False` when neither text nor HTML
content is provided; otherwise the SMTP send, whose exceptions are caught
and yield `False`.  Never raises. -/
def send_email (passwordSet smtpOk : Bool)
    (textContent htmlContent : Option Str) : Bool :=
  if !passwordSet then false
  else if !pyTruthy htmlContent && !pyTruthy textContent then false
  else if smtpOk then true else false

/-- `send_email_notification` (shop/notifications.py lines 8‑36): build the
HTML template when order details are present, call `send_email`, and
**raise** `Exception("Failed to send email")` when it returns `False`; the
surrounding `except` re-raises.  The `Except.error` value models the
exception leaving the function. -/
def send_email_notification (passwordSet smtpOk : Bool) (body : Option Str)
    (orderDetails : Option Unit) : Except Str Unit :=
  let htmlContent : Option Str := orderDetails.map create_order_email_template
  if send_email passwordSet smtpOk body htmlContent then .ok ()
  else .error "Failed to send email".toList

/-! ## Shop receipt handler (`shop/main.py` lines 236‑385) -/

/-- The kind of attachment on the incoming chat message. -/
inductive AttachmentKind
  | photo
  | pdfDocument
  | other
deriving DecidableEq, Repr

/-- The chat-session state after the handler runs (`ShopStates`):
`WAITING_FOR_RECEIPT` is kept on rejection, `ORDER_PAID` is set on
acceptance (main.py line 363). -/
inductive ShopState
  | waitingForReceipt
  | orderPaid
deriving DecidableEq, Repr

/-- The `Order` row created at checkout (delivery_handlers.py lines
214‑224, models.py lines 42‑56): its creation date and its
`payment_status`, which is `'pending'` at creation. -/
structure ShopDb where
  orderCreatedAt : Date
  paymentStatus : Str
deriving DecidableEq, Repr

/-- Result of one run of `process_payment_receipt`: the main reply text,
the final session state, the archived receipt path produced by the
pipeline (recorded for the statements below), the filesystem and the
order row. -/
structure ShopRunResult where
  reply : Str
  state : ShopState
  archivedPath : Option Str
  fs : Fs
  db : ShopDb
deriving Repr

/-- The date-mismatch reply (main.py lines 295‑298). -/
def dateMismatchMsg : Str :=
  "❌ Дата в чеке не совпадает с датой оформления заказа.\nЗаказ не может быть принят.".toList

/-- The acceptance reply (main.py lines 357‑360). -/
def orderAcceptedMsg : Str :=
  "✅ Заказ успешно оформлен!\nПодтверждение отправлено на ваш email.".toList

/-- The inner `except` reply (main.py lines 366‑371). -/
def receiptCheckErrorMsg : Str :=
  "❌ Произошла ошибка при проверке чека.\nПожалуйста, попробуйте снова.".toList

/-- The reply for a non-photo, non-PDF attachment (main.py lines
258‑262). -/
def wrongAttachmentMsg : Str :=
  "❌ Пожалуйста, отправьте чек об оплате в виде фотографии или PDF-документа.".toList

/-- The name `temp_{user_id}_{message_id}{ext}` of the downloaded file
(main.py line 273). -/
def tempDownloadName (uid msgId : Nat) (ext : Str) : Str :=
  "temp_".toList ++ (toString uid).toList ++ "_".toList ++
    (toString msgId).toList ++ ext

/-- `process_payment_receipt` (main.py lines 236‑385): download the file
to `temp_{user_id}_{message_id}.{jpg|pdf}`, run `process_image`, reject
with the pipeline's message on failure, compare the extracted date with
the **current Moscow date** (`current_date = get_moscow_time().date()`,
lines 279‑281 and 292‑299), and on success send the (stubbed) email
notifications and set the session state to `ORDER_PAID`.  The `finally`
block removes the downloaded temp file.  The handler performs no database
access: the `Order` row `db` is threaded through unchanged, exactly as in
the source, which never reads or writes it in this handler. -/
def process_payment_receipt (uid msgId : Nat) (attachment : AttachmentKind)
    (downloadOk : Bool) (env : PipelineEnv) (currentDate : Date)
    (db : ShopDb) (fs0 : Fs) : ShopRunResult :=
  match attachment with
  | .other => ⟨wrongAttachmentMsg, .waitingForReceipt, none, fs0, db⟩
  | kind =>
    let ext := if kind = .photo then ".jpg".toList else ".pdf".toList
    let tempFile := tempDownloadName uid msgId ext
    if !downloadOk then
      ⟨receiptCheckErrorMsg, .waitingForReceipt, none, fs0, db⟩
    else
      let fs1 := tempFile :: fs0
      let pr := process_image tempFile uid env fs1
      let result : ShopRunResult :=
        if !pr.1.success then
          ⟨"❌ ".toList ++ pr.1.message, .waitingForReceipt, none, pr.2, db⟩
        else if pr.1.receipt_date ≠ some currentDate then
          ⟨dateMismatchMsg, .waitingForReceipt, pr.1.receipt_path, pr.2, db⟩
        else
          ⟨orderAcceptedMsg, .orderPaid, pr.1.receipt_path, pr.2, db⟩
      { result with fs := removePath result.fs tempFile }

/-! ## Cart (`shop/main.py` lines 448‑532, `shop/protected_handlers.py`
lines 110‑194) -/

/-- One cart entry: `{'name': …, 'price': …, 'quantity': …}` (the float
price is opaque to the quantity logic and modelled as an integer). -/
structure CartItem where
  name : Str
  price : Int
  quantity : Nat
deriving DecidableEq, Repr

/-- The cart dictionary: insertion-ordered, unique product-id keys. -/
abbrev Cart := List (Str × CartItem)

/-- `product_id in cart`. -/
def cartHas (c : Cart) (pid : Str) : Bool :=
  c.any (fun e => e.1 = pid)

/-- The quantity stored for a product id (0 when absent). -/
def cartGetQty (c : Cart) (pid : Str) : Nat :=
  match c.find? (fun e => e.1 = pid) with
  | some e => e.2.quantity
  | none => 0

/-- `cart[product_id]['quantity'] = f(…)`: in-place update of one key. -/
def cartModifyQty (c : Cart) (pid : Str) (f : Nat → Nat) : Cart :=
  c.map (fun e => if e.1 = pid then (e.1, { e.2 with quantity := f e.2.quantity }) else e)

/-- `process_cart_callback` (main.py lines 448‑496): parse the callback
data on `_`; `clear` empties the cart, `checkout` leaves it; a missing or
unknown product id leaves it; `increase` adds one; `decrease` subtracts
one only when the quantity exceeds 1; `remove` deletes the key; any other
action (e.g. `info`) falls through with the cart unchanged.  A parse
failure (`IndexError`) is caught by the handler's `except` and the cart is
not updated. -/
def process_cart_callback (c : Cart) (callbackData : Str) : Cart :=
  let parts := pySplit '_' callbackData
  match parts.get? 1 with
  | none => c
  | some action =>
    if action = "clear".toList then []
    else if action = "checkout".toList then c
    else
      let pid := (parts.get? 2).getD []
      if pid.isEmpty || !cartHas c pid then c
      else if action = "increase".toList then
        cartModifyQty c pid (fun q => q + 1)
      else if action = "decrease".toList then
        if cartGetQty c pid > 1 then cartModifyQty c pid (fun q => q - 1)
        else c
      else if action = "remove".toList then
        c.filter (fun e => e.1 ≠ pid)
      else c

/-- `process_add_to_cart_callback` (main.py lines 498‑532): the product id
is the last `_`-separated field; a product missing from the catalog leaves
the cart; an id already present gets its quantity increased by one;
otherwise a new entry with quantity 1 is appended.  `product` is the
catalog row the database lookup returns. -/
def process_add_to_cart_callback (c : Cart) (callbackData : Str)
    (product : Option (Str × Int)) : Cart :=
  let pid := (pySplit '_' callbackData).getLastD []
  match product with
  | none => c
  | some (pname, pprice) =>
    if cartHas c pid then cartModifyQty c pid (fun q => q + 1)
    else c ++ [(pid, ⟨pname, pprice, 1⟩)]

/-- The cart invariant of claim C10: every entry has quantity at least 1. -/
def CartInv (c : Cart) : Prop :=
  ∀ e ∈ c, 1 ≤ e.2.quantity

instance (c : Cart) : Decidable (CartInv c) := by
  unfold CartInv; infer_instance

/-! ## Shared concrete scenarios -/

/-- A pipeline run where every external call succeeds: the OCR finds
Russian text, the classifier approves, and the extracted date is
15.03.2024. -/
def happyEnv : PipelineEnv where
  moscowTime := 100
  tempDirName := "/tmp/pdfconv".toList
  pdfPages := .ok 1
  imageOpen := .ok ()
  imgNormalize := .ok ()
  ocrRus := .ok "Чек ИП Курников А.В. 500 RUB 15.03.2024".toList
  ocrGeneric := .ok []
  validityReply := .ok "true|найдено ИП Курников А.В.".toList
  dateReply := .ok "15.03.2024".toList
  saveOk := true

/-- A one-item cart. -/
def sampleCart : Cart := [("5".toList, ⟨"Фен".toList, 5900, 1⟩)]

/-! ## Helper lemmas -/

lemma char_toNat_ofNat {n : Nat} (h : n < 55296) : (Char.ofNat n).toNat = n := by
  unfold Char.ofNat
  rw [dif_pos (Or.inl h)]
  simp [Char.ofNatAux, Char.toNat, UInt32.toNat, BitVec.toNat_ofNatLt]

/-- Lower-casing cannot produce the `|` delimiter. -/
lemma pyLowerChar_pipe {c : Char} (h : pyLowerChar c = '|') : c = '|' := by
  unfold pyLowerChar at h
  split at h
  · rename_i hr
    obtain ⟨h1, h2⟩ := hr
    rw [Char.le_def] at h1 h2
    have hb : 65 ≤ c.toNat ∧ c.toNat ≤ 90 := ⟨h1, h2⟩
    have hn := congrArg Char.toNat h
    rw [char_toNat_ofNat (by omega)] at hn
    have : c.toNat + 32 = 124 := hn
    omega
  · split at h
    · rename_i hr
      obtain ⟨h1, h2⟩ := hr
      rw [Char.le_def] at h1 h2
      have hb : 1040 ≤ c.toNat ∧ c.toNat ≤ 1071 := ⟨h1, h2⟩
      have hn := congrArg Char.toNat h
      rw [char_toNat_ofNat (by omega)] at hn
      have : c.toNat + 32 = 124 := hn
      omega
    · split at h
      · exact absurd h (by decide)
      · exact h

lemma mem_of_mem_pyStrip {c : Char} {s : Str} (h : c ∈ pyStrip s) : c ∈ s := by
  unfold pyStrip at h
  rw [List.mem_reverse] at h
  have h1 := (List.dropWhile_sublist isPyWhitespace).mem h
  rw [List.mem_reverse] at h1
  exact (List.dropWhile_sublist isPyWhitespace).mem h1

lemma pipe_mem_of_mem_pyLower {s : Str} (h : '|' ∈ pyLower s) : '|' ∈ s := by
  unfold pyLower at h
  obtain ⟨c, hc, he⟩ := List.mem_map.mp h
  rwa [pyLowerChar_pipe he] at hc

lemma pySplit_of_no_sep {sep : Char} {s : Str} (h : sep ∉ s) :
    pySplit sep s = [s] := by
  unfold pySplit List.splitOn
  apply List.splitOnP_eq_single
  intro x hx
  simp only [beq_iff_eq]
  exact fun he => h (he ▸ hx)

lemma toList_append_ne_nil {s : String} (h : s.toList ≠ []) (t : Str) :
    s.toList ++ t ≠ [] := by
  intro hc
  exact h (List.append_eq_nil.mp hc).1

lemma fileErrorMsg_ne_nil (e : Str) : fileErrorMsg e ≠ [] :=
  toList_append_ne_nil (by decide) e

/-- Outcome characterization of `analyze_receipt`. -/
lemma analyze_receipt_spec (v d : Call Str) :
    ((analyze_receipt v d).1 = true →
      (analyze_receipt v d).2.1 ≠ none ∧
      (analyze_receipt v d).2.2 = "Чек успешно проверен".toList) ∧
    ((analyze_receipt v d).1 = false → (analyze_receipt v d).2.1 = none) ∧
    (analyze_receipt v d).2.2 ≠ [] := by
  unfold analyze_receipt analyze_receipt_traced
  split
  · refine ⟨fun h => ?_, fun _ => rfl, ?_⟩
    · simp at h
    · show "Отправленный документ не является платежным чеком".toList ≠ []
      decide
  · split
    · refine ⟨fun h => ?_, fun _ => rfl, ?_⟩
      · simp at h
      · show "Не удалось определить дату в чеке".toList ≠ []
        decide
    · refine ⟨fun _ => ⟨?_, rfl⟩, fun h => ?_, ?_⟩
      · simp
      · simp at h
      · show "Чек успешно проверен".toList ≠ []
        decide

/-- Outcome characterization of `save_receipt_file`. -/
lemma save_receipt_file_spec (p : Str) (uid t : Nat) (ok : Bool) (fs : Fs) :
    (save_receipt_file p uid t ok fs).1 =
      (if ok then
        some (receiptArchiveName uid t (splitextExt p), t + retentionSeconds)
       else none) ∧
    (save_receipt_file p uid t ok fs).2 =
      (if ok then receiptArchiveName uid t (splitextExt p) :: fs else fs) := by
  unfold save_receipt_file
  split <;> simp_all

/-- Outcome characterization of the text stage of `process_image`. -/
lemma textStage_spec (imagePath : Str) (uid mt : Nat) (vr dr : Call Str)
    (sok : Bool) (fs : Fs) (tempDir tempImg : Option Str) (text : Str) :
    (process_image_textStage imagePath uid mt vr dr sok fs tempDir tempImg text).tempDir = tempDir ∧
    (process_image_textStage imagePath uid mt vr dr sok fs tempDir tempImg text).tempImg = tempImg ∧
    ((process_image_textStage imagePath uid mt vr dr sok fs tempDir tempImg text).outcome.success = true →
      (process_image_textStage imagePath uid mt vr dr sok fs tempDir tempImg text).outcome.receipt_path =
        some (receiptArchiveName uid mt (splitextExt imagePath)) ∧
      (process_image_textStage imagePath uid mt vr dr sok fs tempDir tempImg text).outcome.receipt_date ≠ none ∧
      (process_image_textStage imagePath uid mt vr dr sok fs tempDir tempImg text).outcome.message =
        "Чек успешно проверен".toList) ∧
    ((process_image_textStage imagePath uid mt vr dr sok fs tempDir tempImg text).outcome.success = false →
      (process_image_textStage imagePath uid mt vr dr sok fs tempDir tempImg text).outcome.receipt_path = none ∧
      (process_image_textStage imagePath uid mt vr dr sok fs tempDir tempImg text).outcome.receipt_date = none ∧
      (process_image_textStage imagePath uid mt vr dr sok fs tempDir tempImg text).outcome.message ≠ []) ∧
    (∀ p ∈ (process_image_textStage imagePath uid mt vr dr sok fs tempDir tempImg text).fs,
      p ∈ fs ∨
      ((process_image_textStage imagePath uid mt vr dr sok fs tempDir tempImg text).outcome.success = true ∧
        p = receiptArchiveName uid mt (splitextExt imagePath))) := by
  unfold process_image_textStage
  by_cases ht : (pyStrip text).isEmpty = true
  · rw [if_pos ht]
    refine ⟨rfl, rfl, fun h => by simp [rejectWith] at h,
      fun _ => ⟨rfl, rfl, ?_⟩, fun p hp => Or.inl hp⟩
    show "Не удалось распознать текст на изображении".toList ≠ []
    decide
  · rw [if_neg ht]
    dsimp only
    split
    · exact ⟨rfl, rfl, fun h => by simp [rejectWith] at h,
        fun _ => ⟨rfl, rfl, (analyze_receipt_spec vr dr).2.2⟩,
        fun p hp => Or.inl hp⟩
    · rename_i hnv
      have hvt : (analyze_receipt vr dr).1 = true := by
        revert hnv
        cases (analyze_receipt vr dr).1 <;> simp
      cases sok with
      | false =>
        have h1 : save_receipt_file imagePath uid mt false fs = (none, fs) := by
          unfold save_receipt_file
          simp
        rw [h1]
        refine ⟨rfl, rfl, fun h => by simp [rejectWith] at h,
          fun _ => ⟨rfl, rfl, ?_⟩, fun p hp => Or.inl hp⟩
        show "Ошибка сохранения файла чека".toList ≠ []
        decide
      | true =>
        have h1 : save_receipt_file imagePath uid mt true fs =
            (some (receiptArchiveName uid mt (splitextExt imagePath),
              mt + retentionSeconds),
             receiptArchiveName uid mt (splitextExt imagePath) :: fs) := by
          unfold save_receipt_file
          simp
        rw [h1]
        refine ⟨rfl, rfl, fun _ => ⟨rfl, ?_, rfl⟩,
          fun h => by simp at h, fun p hp => ?_⟩
        · exact ((analyze_receipt_spec vr dr).1 hvt).1
        · rcases List.mem_cons.mp hp with rfl | hm
          · exact Or.inr ⟨rfl, rfl⟩
          · exact Or.inl hm

/-- Outcome characterization of the post-open stage of `process_image`. -/
lemma afterOpen_spec (imagePath : Str) (uid : Nat) (env : PipelineEnv)
    (fs : Fs) (tempDir tempImg : Option Str) :
    (process_image_afterOpen imagePath uid env fs tempDir tempImg).tempDir = tempDir ∧
    (process_image_afterOpen imagePath uid env fs tempDir tempImg).tempImg = tempImg ∧
    ((process_image_afterOpen imagePath uid env fs tempDir tempImg).outcome.success = true →
      (process_image_afterOpen imagePath uid env fs tempDir tempImg).outcome.receipt_path =
        some (receiptArchiveName uid env.moscowTime (splitextExt imagePath)) ∧
      (process_image_afterOpen imagePath uid env fs tempDir tempImg).outcome.receipt_date ≠ none ∧
      (process_image_afterOpen imagePath uid env fs tempDir tempImg).outcome.message =
        "Чек успешно проверен".toList) ∧
    ((process_image_afterOpen imagePath uid env fs tempDir tempImg).outcome.success = false →
      (process_image_afterOpen imagePath uid env fs tempDir tempImg).outcome.receipt_path = none ∧
      (process_image_afterOpen imagePath uid env fs tempDir tempImg).outcome.receipt_date = none ∧
      (process_image_afterOpen imagePath uid env fs tempDir tempImg).outcome.message ≠ []) ∧
    (∀ p ∈ (process_image_afterOpen imagePath uid env fs tempDir tempImg).fs,
      p ∈ fs ∨
      ((process_image_afterOpen imagePath uid env fs tempDir tempImg).outcome.success = true ∧
        p = receiptArchiveName uid env.moscowTime (splitextExt imagePath))) := by
  obtain ⟨mt, tdn, pp, io, inorm, orus, ogen, vr, dr, sok⟩ := env
  unfold process_image_afterOpen
  dsimp only
  cases inorm with
  | error e =>
    exact ⟨rfl, rfl, fun h => by simp [rejectWith] at h,
      fun _ => ⟨rfl, rfl, fileErrorMsg_ne_nil _⟩, fun p hp => Or.inl hp⟩
  | ok u =>
    cases orus with
    | error e =>
      exact ⟨rfl, rfl, fun h => by simp [rejectWith] at h,
        fun _ => ⟨rfl, rfl, fileErrorMsg_ne_nil _⟩, fun p hp => Or.inl hp⟩
    | ok rus =>
      dsimp only
      by_cases hre : (pyStrip rus).isEmpty = true
      case pos =>
        rw [if_pos hre]
        cases ogen with
        | error e =>
          exact ⟨rfl, rfl, fun h => by simp [rejectWith] at h,
            fun _ => ⟨rfl, rfl, fileErrorMsg_ne_nil _⟩, fun p hp => Or.inl hp⟩
        | ok gen =>
          exact textStage_spec imagePath uid mt vr dr sok fs tempDir tempImg gen
      case neg =>
        rw [if_neg hre]
        exact textStage_spec imagePath uid mt vr dr sok fs tempDir tempImg rus

lemma mem_removePath {fs : Fs} {p q : Str} (h : p ∈ removePath fs q) :
    p ∈ fs ∧ p ≠ q := by
  unfold removePath at h
  have hm := List.mem_filter.mp h
  exact ⟨hm.1, by simpa using hm.2⟩

lemma mem_removeTree {fs : Fs} {p d : Str} (h : p ∈ removeTree fs d) :
    p ∈ fs ∧ p ≠ d ∧ List.isPrefixOf (d ++ "/".toList) p = false := by
  unfold removeTree at h
  have hm := List.mem_filter.mp h
  have h2 := hm.2
  rw [Bool.and_eq_true] at h2
  exact ⟨hm.1, by simpa using h2.1, by simpa using h2.2⟩

/-- Outcome characterization of the body of `process_image`. -/
lemma process_image_body_spec (imagePath : Str) (uid : Nat)
    (env : PipelineEnv) (fs0 : Fs) :
    ((process_image_body imagePath uid env fs0).outcome.success = true →
      (process_image_body imagePath uid env fs0).outcome.receipt_path =
        some (receiptArchiveName uid env.moscowTime (splitextExt imagePath)) ∧
      (process_image_body imagePath uid env fs0).outcome.receipt_date ≠ none ∧
      (process_image_body imagePath uid env fs0).outcome.message =
        "Чек успешно проверен".toList) ∧
    ((process_image_body imagePath uid env fs0).outcome.success = false →
      (process_image_body imagePath uid env fs0).outcome.receipt_path = none ∧
      (process_image_body imagePath uid env fs0).outcome.receipt_date = none ∧
      (process_image_body imagePath uid env fs0).outcome.message ≠ []) ∧
    (∀ p ∈ (process_image_body imagePath uid env fs0).fs,
      p ∈ fs0 ∨
      (process_image_body imagePath uid env fs0).tempDir = some p ∨
      (process_image_body imagePath uid env fs0).tempImg = some p ∨
      ((process_image_body imagePath uid env fs0).outcome.success = true ∧
        p = receiptArchiveName uid env.moscowTime (splitextExt imagePath))) := by
  unfold process_image_body
  split
  · refine ⟨fun h => by simp [rejectWith] at h,
      fun _ => ⟨rfl, rfl, ?_⟩, fun p hp => Or.inl hp⟩
    show "Файл не найден".toList ≠ []
    decide
  · dsimp only
    split
    · split
      · rename_i e heq
        refine ⟨fun h => by simp [rejectWith] at h,
          fun _ => ⟨rfl, rfl, ?_⟩, fun p hp => ?_⟩
        · split
          · show "Для обработки PDF требуется установка Poppler".toList ≠ []
            decide
          · exact toList_append_ne_nil (by decide) e
        · rcases List.mem_cons.mp hp with rfl | hm
          · exact Or.inr (Or.inl rfl)
          · exact Or.inl hm
      · rename_i n heq
        split
        · refine ⟨fun h => by simp [rejectWith] at h,
            fun _ => ⟨rfl, rfl, ?_⟩, fun p hp => ?_⟩
          · show "Не удалось обработать PDF документ".toList ≠ []
            decide
          · rcases List.mem_cons.mp hp with rfl | hm
            · exact Or.inr (Or.inl rfl)
            · exact Or.inl hm
        · obtain ⟨htd, hti, hsucc, hfail, hmem⟩ :=
            afterOpen_spec imagePath uid env
              ((env.tempDirName ++ "/converted.jpg".toList) ::
                env.tempDirName :: fs0)
              (some env.tempDirName)
              (some (env.tempDirName ++ "/converted.jpg".toList))
          refine ⟨hsucc, hfail, fun p hp => ?_⟩
          rcases hmem p hp with hin | hsp
          · rcases List.mem_cons.mp hin with rfl | hin2
            · exact Or.inr (Or.inr (Or.inl hti))
            · rcases List.mem_cons.mp hin2 with rfl | hin3
              · exact Or.inr (Or.inl htd)
              · exact Or.inl hin3
          · exact Or.inr (Or.inr (Or.inr hsp))
    · split
      · rename_i e heq
        exact ⟨fun h => by simp [rejectWith] at h,
          fun _ => ⟨rfl, rfl, fileErrorMsg_ne_nil e⟩, fun p hp => Or.inl hp⟩
      · obtain ⟨htd, hti, hsucc, hfail, hmem⟩ :=
          afterOpen_spec imagePath uid env fs0 none none
        refine ⟨hsucc, hfail, fun p hp => ?_⟩
        rcases hmem p hp with hin | hsp
        · exact Or.inl hin
        · exact Or.inr (Or.inr (Or.inr hsp))

/-- Membership in the filesystem after a `process_image` run: the path
survived the body and the `finally` cleanup. -/
lemma process_image_fs_mem (imagePath : Str) (uid : Nat)
    (env : PipelineEnv) (fs0 : Fs) :
    ∀ p ∈ (process_image imagePath uid env fs0).2,
      p ∈ (process_image_body imagePath uid env fs0).fs ∧
      (∀ d, (process_image_body imagePath uid env fs0).tempDir = some d →
        p ≠ d ∧ List.isPrefixOf (d ++ "/".toList) p = false) ∧
      (∀ q, (process_image_body imagePath uid env fs0).tempImg = some q → p ≠ q) := by
  intro p hp
  unfold process_image at hp
  dsimp only at hp
  rcases hti : (process_image_body imagePath uid env fs0).tempImg with _ | ti <;>
    rw [hti] at hp <;> dsimp only at hp <;>
    rcases htd : (process_image_body imagePath uid env fs0).tempDir with _ | td <;>
      rw [htd] at hp <;> dsimp only at hp
  · refine ⟨hp, ?_, ?_⟩
    · intro d hd; cases hd
    · intro q hq; cases hq
  · obtain ⟨h1, h2, h3⟩ := mem_removeTree hp
    refine ⟨h1, ?_, ?_⟩
    · intro d hd
      injection hd with hd
      rw [← hd]
      exact ⟨h2, h3⟩
    · intro q hq; cases hq
  · obtain ⟨h1, h2⟩ := mem_removePath hp
    refine ⟨h1, ?_, ?_⟩
    · intro d hd; cases hd
    · intro q hq
      injection hq with hq
      rw [← hq]
      exact h2
  · obtain ⟨h1, h2, h3⟩ := mem_removeTree hp
    obtain ⟨h4, h5⟩ := mem_removePath h1
    refine ⟨h4, ?_, ?_⟩
    · intro d hd
      injection hd with hd
      rw [← hd]
      exact ⟨h2, h3⟩
    · intro q hq
      injection hq with hq
      rw [← hq]
      exact h5

/-- Outcome characterization of `process_image`. -/
lemma process_image_spec (imagePath : Str) (uid : Nat)
    (env : PipelineEnv) (fs0 : Fs) :
    ((process_image imagePath uid env fs0).1.success = true ↔
      (process_image imagePath uid env fs0).1.receipt_date ≠ none ∧
      (process_image imagePath uid env fs0).1.receipt_path ≠ none) ∧
    (process_image imagePath uid env fs0).1.message ≠ [] ∧
    ((process_image imagePath uid env fs0).1.success = true →
      (process_image imagePath uid env fs0).1.receipt_path =
        some (receiptArchiveName uid env.moscowTime (splitextExt imagePath)) ∧
      (process_image imagePath uid env fs0).1.message =
        "Чек успешно проверен".toList) ∧
    ((process_image imagePath uid env fs0).1.success = false →
      (process_image imagePath uid env fs0).1.receipt_path = none ∧
      ∀ p ∈ (process_image imagePath uid env fs0).2, p ∈ fs0) := by
  obtain ⟨hsucc, hfail, hmem⟩ := process_image_body_spec imagePath uid env fs0
  have hout : (process_image imagePath uid env fs0).1 =
      (process_image_body imagePath uid env fs0).outcome := rfl
  refine ⟨?_, ?_, ?_, ?_⟩
  · rw [hout]
    constructor
    · intro h
      obtain ⟨hp, hd, _⟩ := hsucc h
      rw [hp]
      exact ⟨hd, by simp⟩
    · rintro ⟨hd, hp⟩
      cases hs : (process_image_body imagePath uid env fs0).outcome.success with
      | true => rfl
      | false => exact absurd (hfail hs).1 hp
  · rw [hout]
    cases hs : (process_image_body imagePath uid env fs0).outcome.success with
    | true => rw [(hsucc hs).2.2]; decide
    | false => exact (hfail hs).2.2
  · rw [hout]
    intro h
    exact ⟨(hsucc h).1, (hsucc h).2.2⟩
  · rw [hout]
    intro h
    refine ⟨(hfail h).1, fun p hp => ?_⟩
    obtain ⟨h1, h2, h3⟩ := process_image_fs_mem imagePath uid env fs0 p hp
    rcases hmem p h1 with hin | hd | hq | hsp
    · exact hin
    · exact absurd rfl (h2 p hd).1
    · exact absurd rfl (h3 p hq)
    · rw [hsp.1] at h
      cases h

/-! ## Claim C9 — total return contract of `process_image` -/

/-- C9: `process_image` is a total function returning the 4-tuple
`(success, receipt_date, receipt_path, message)` (every exception path of
the source ends in a `return` of this shape, so nothing escapes); success
is `True` exactly when both the receipt date and the archived path are
non-`None`, and the message is always a non-empty string. -/
theorem process_image_total_contract (imagePath : Str) (uid : Nat)
    (env : PipelineEnv) (fs0 : Fs) :
    ((process_image imagePath uid env fs0).1.success = true ↔
      (process_image imagePath uid env fs0).1.receipt_date ≠ none ∧
      (process_image imagePath uid env fs0).1.receipt_path ≠ none) ∧
    (process_image imagePath uid env fs0).1.message ≠ [] :=
  ⟨(process_image_spec imagePath uid env fs0).1,
   (process_image_spec imagePath uid env fs0).2.1⟩

/-! ## Claim C8 — temporary-file cleanup -/

/-- C8: after every run of `process_image` — accept, reject, or an
exception path — the converted-image file and the temporary conversion
directory created by that run, with everything inside the directory, are
absent from the final filesystem. -/
theorem process_image_cleanup (imagePath : Str) (uid : Nat)
    (env : PipelineEnv) (fs0 : Fs) :
    (∀ d, (process_image_body imagePath uid env fs0).tempDir = some d →
      d ∉ (process_image imagePath uid env fs0).2 ∧
      ∀ q ∈ (process_image imagePath uid env fs0).2,
        List.isPrefixOf (d ++ "/".toList) q = false) ∧
    (∀ t, (process_image_body imagePath uid env fs0).tempImg = some t →
      t ∉ (process_image imagePath uid env fs0).2) := by
  refine ⟨fun d hd => ⟨fun hmem => ?_, fun q hq => ?_⟩, fun t ht hmem => ?_⟩
  · exact ((process_image_fs_mem imagePath uid env fs0 d hmem).2.1 d hd).1 rfl
  · exact ((process_image_fs_mem imagePath uid env fs0 q hq).2.1 d hd).2
  · exact (process_image_fs_mem imagePath uid env fs0 t hmem).2.2 t ht rfl

/-- C8 (witness): the cleanup theorem on a concrete PDF run that creates
both temporaries. -/
theorem process_image_cleanup_witness :
    ("/tmp/pdfconv".toList ∉
      (process_image "r.pdf".toList 7 happyEnv ["r.pdf".toList]).2 ∧
     ∀ q ∈ (process_image "r.pdf".toList 7 happyEnv ["r.pdf".toList]).2,
       List.isPrefixOf ("/tmp/pdfconv".toList ++ "/".toList) q = false) ∧
    "/tmp/pdfconv/converted.jpg".toList ∉
      (process_image "r.pdf".toList 7 happyEnv ["r.pdf".toList]).2 :=
  ⟨(process_image_cleanup "r.pdf".toList 7 happyEnv ["r.pdf".toList]).1
      "/tmp/pdfconv".toList (by decide),
   (process_image_cleanup "r.pdf".toList 7 happyEnv ["r.pdf".toList]).2
      "/tmp/pdfconv/converted.jpg".toList (by decide)⟩

/-! ## Claim C2 — no archive on rejection -/

/-- C2 (counterexample): the claim lists the date-mismatch stage among
the rejections that archive nothing; but a submission rejected there has
already had its receipt archived by `process_image`, and the archive file
is still present in the filesystem after the run. -/
theorem date_mismatch_rejection_archives_file :
    (process_payment_receipt 7 1 .photo true happyEnv ⟨16, 3, 2024⟩
      ⟨⟨16, 3, 2024⟩, "pending".toList⟩ []).reply = dateMismatchMsg ∧
    (process_payment_receipt 7 1 .photo true happyEnv ⟨16, 3, 2024⟩
      ⟨⟨16, 3, 2024⟩, "pending".toList⟩ []).state =
        ShopState.waitingForReceipt ∧
    "temp_receipts/receipt_7_100.jpg".toList ∈
      (process_payment_receipt 7 1 .photo true happyEnv ⟨16, 3, 2024⟩
        ⟨⟨16, 3, 2024⟩, "pending".toList⟩ []).fs := by
  decide

/-- C2 (amended): every rejection produced inside `process_image` archives
nothing — the returned receipt path is `None` and no file created by the
run outlives the `finally` cleanup — and the outcome always carries a
non-empty reason message.  The shop-level date-mismatch rejection is the
exception: it happens after the pipeline has already archived the file
(see the counterexample). -/
theorem rejected_in_pipeline_no_archive (imagePath : Str) (uid : Nat)
    (env : PipelineEnv) (fs0 : Fs)
    (h : (process_image imagePath uid env fs0).1.success = false) :
    (process_image imagePath uid env fs0).1.receipt_path = none ∧
    (process_image imagePath uid env fs0).1.message ≠ [] ∧
    ∀ p ∈ (process_image imagePath uid env fs0).2, p ∈ fs0 :=
  ⟨((process_image_spec imagePath uid env fs0).2.2.2 h).1,
   (process_image_spec imagePath uid env fs0).2.1,
   ((process_image_spec imagePath uid env fs0).2.2.2 h).2⟩

/-- C2 (witness): the no-archive theorem on a run rejected by the
validity classifier. -/
theorem rejected_in_pipeline_no_archive_witness :
    (process_image "r.jpg".toList 7
      { happyEnv with validityReply := .ok "false|нет реквизитов".toList }
      ["r.jpg".toList]).1.receipt_path = none ∧
    (process_image "r.jpg".toList 7
      { happyEnv with validityReply := .ok "false|нет реквизитов".toList }
      ["r.jpg".toList]).1.message ≠ [] ∧
    ∀ p ∈ (process_image "r.jpg".toList 7
      { happyEnv with validityReply := .ok "false|нет реквизитов".toList }
      ["r.jpg".toList]).2, p ∈ ["r.jpg".toList] :=
  rejected_in_pipeline_no_archive "r.jpg".toList 7
    { happyEnv with validityReply := .ok "false|нет реквизитов".toList }
    ["r.jpg".toList] (by decide)

/-! ## Claim C6 — acceptance side effects -/

/-- C6 (counterexample): the claim says acceptance transitions the owning
order's payment_status from pending to paid; but an accepted run only sets
the chat-session state to `ORDER_PAID` and leaves the order row's
payment_status at `pending` — no code in the handler (or anywhere else in
the repository) ever writes `paid`. -/
theorem accepted_keeps_payment_status_pending :
    (process_payment_receipt 7 1 .photo true happyEnv ⟨15, 3, 2024⟩
      ⟨⟨15, 3, 2024⟩, "pending".toList⟩ []).state = ShopState.orderPaid ∧
    (process_payment_receipt 7 1 .photo true happyEnv ⟨15, 3, 2024⟩
      ⟨⟨15, 3, 2024⟩, "pending".toList⟩ []).db.paymentStatus =
        "pending".toList ∧
    "pending".toList ≠ "paid".toList := by
  decide

/-- C6 (amended): for every accepted submission the archived receipt's
name is `temp_receipts/receipt_{user_id}_{timestamp}{ext}` and the
expiration computed by `save_receipt_file` equals the creation timestamp
plus the 24-hour retention window (it is logged, not persisted); the
order row is never touched — its payment_status stays as it was — and
acceptance instead sets the chat-session state to `ORDER_PAID`. -/
theorem accepted_archival_contract :
    (∀ (p : Str) (uid t : Nat) (fs : Fs),
      (save_receipt_file p uid t true fs).1 =
        some (receiptArchiveName uid t (splitextExt p),
          t + retentionSeconds)) ∧
    (∀ (uid msgId : Nat) (kind : AttachmentKind) (dl : Bool)
        (env : PipelineEnv) (cd : Date) (db : ShopDb) (fs0 : Fs),
      (process_payment_receipt uid msgId kind dl env cd db fs0).db = db ∧
      ((process_payment_receipt uid msgId kind dl env cd db fs0).state =
          ShopState.orderPaid →
        (process_payment_receipt uid msgId kind dl env cd db fs0).archivedPath =
          some (receiptArchiveName uid env.moscowTime
            (splitextExt (tempDownloadName uid msgId
              (if kind = .photo then ".jpg".toList else ".pdf".toList)))))) := by
  constructor
  · intro p uid t fs
    rw [(save_receipt_file_spec p uid t true fs).1]
    simp
  · intro uid msgId kind dl env cd db fs0
    cases kind with
    | other => exact ⟨rfl, fun h => by cases h⟩
    | photo =>
      cases dl with
      | false => exact ⟨rfl, fun h => by cases h⟩
      | true =>
        unfold process_payment_receipt
        dsimp only
        rw [if_pos (rfl : AttachmentKind.photo = AttachmentKind.photo)]
        rw [if_neg (by decide : ¬((!true) = true))]
        split
        · exact ⟨rfl, fun h => by cases h⟩
        · split
          · exact ⟨rfl, fun h => by cases h⟩
          · rename_i hns hdm
            have hs : (process_image
                (tempDownloadName uid msgId ".jpg".toList) uid env
                (tempDownloadName uid msgId ".jpg".toList :: fs0)).1.success =
                true := by
              revert hns
              cases (process_image (tempDownloadName uid msgId ".jpg".toList)
                uid env
                (tempDownloadName uid msgId ".jpg".toList :: fs0)).1.success <;>
                simp
            refine ⟨rfl, fun _ => ?_⟩
            exact ((process_image_spec
              (tempDownloadName uid msgId ".jpg".toList) uid env
              (tempDownloadName uid msgId ".jpg".toList :: fs0)).2.2.1 hs).1
    | pdfDocument =>
      cases dl with
      | false => exact ⟨rfl, fun h => by cases h⟩
      | true =>
        unfold process_payment_receipt
        dsimp only
        rw [if_neg (by decide :
          ¬(AttachmentKind.pdfDocument = AttachmentKind.photo))]
        rw [if_neg (by decide : ¬((!true) = true))]
        split
        · exact ⟨rfl, fun h => by cases h⟩
        · split
          · exact ⟨rfl, fun h => by cases h⟩
          · rename_i hns hdm
            have hs : (process_image
                (tempDownloadName uid msgId ".pdf".toList) uid env
                (tempDownloadName uid msgId ".pdf".toList :: fs0)).1.success =
                true := by
              revert hns
              cases (process_image (tempDownloadName uid msgId ".pdf".toList)
                uid env
                (tempDownloadName uid msgId ".pdf".toList :: fs0)).1.success <;>
                simp
            refine ⟨rfl, fun _ => ?_⟩
            exact ((process_image_spec
              (tempDownloadName uid msgId ".pdf".toList) uid env
              (tempDownloadName uid msgId ".pdf".toList :: fs0)).2.2.1 hs).1

/-- C6 (witness): the conditional part of the archival contract at a
concrete accepted run. -/
theorem accepted_archival_contract_witness :
    (process_payment_receipt 7 1 .photo true happyEnv ⟨15, 3, 2024⟩
      ⟨⟨15, 3, 2024⟩, "pending".toList⟩ []).db =
        (⟨⟨15, 3, 2024⟩, "pending".toList⟩ : ShopDb) ∧
    (process_payment_receipt 7 1 .photo true happyEnv ⟨15, 3, 2024⟩
      ⟨⟨15, 3, 2024⟩, "pending".toList⟩ []).archivedPath =
      some (receiptArchiveName 7 happyEnv.moscowTime
        (splitextExt (tempDownloadName 7 1
          (if AttachmentKind.photo = .photo then ".jpg".toList
           else ".pdf".toList)))) :=
  ⟨(accepted_archival_contract.2 7 1 .photo true happyEnv ⟨15, 3, 2024⟩
      ⟨⟨15, 3, 2024⟩, "pending".toList⟩ []).1,
   (accepted_archival_contract.2 7 1 .photo true happyEnv ⟨15, 3, 2024⟩
      ⟨⟨15, 3, 2024⟩, "pending".toList⟩ []).2 (by decide)⟩

/-! ## Claim C1 — the date-equality rule's comparand -/

/-- C1 (counterexample): a submission whose extracted date (15.03.2024)
differs from the order's recorded creation date (14.03.2024) is accepted,
not rejected — because the code compares against the current Moscow date,
not the order's creation date; conversely a receipt dated exactly like
the order's creation date is rejected when submitted the next day. -/
theorem date_compared_to_current_not_order :
    ((process_payment_receipt 7 1 .photo true happyEnv ⟨15, 3, 2024⟩
        ⟨⟨14, 3, 2024⟩, "pending".toList⟩ []).state = ShopState.orderPaid ∧
      ((⟨15, 3, 2024⟩ : Date) ≠ (⟨14, 3, 2024⟩ : Date))) ∧
    ((process_payment_receipt 7 1 .photo true happyEnv ⟨16, 3, 2024⟩
        ⟨⟨15, 3, 2024⟩, "pending".toList⟩ []).reply = dateMismatchMsg) := by
  decide

/-- C1 (amended): the extracted payment date is compared with the current
Moscow date at submission time, with exact equality and no tolerance
window: equality yields acceptance, any mismatch yields the fixed
date-mismatch reply with the session left waiting; the order row —
including its recorded creation date — is never consulted, so the outcome
is identical for any two order rows. -/
theorem shop_date_rule (uid msgId : Nat) (kind : AttachmentKind) (dl : Bool)
    (env : PipelineEnv) (cd : Date) (db db2 : ShopDb) (fs0 : Fs) :
    ((process_payment_receipt uid msgId kind dl env cd db fs0).reply =
       (process_payment_receipt uid msgId kind dl env cd db2 fs0).reply ∧
     (process_payment_receipt uid msgId kind dl env cd db fs0).state =
       (process_payment_receipt uid msgId kind dl env cd db2 fs0).state ∧
     (process_payment_receipt uid msgId kind dl env cd db fs0).fs =
       (process_payment_receipt uid msgId kind dl env cd db2 fs0).fs ∧
     (process_payment_receipt uid msgId kind dl env cd db fs0).archivedPath =
       (process_payment_receipt uid msgId kind dl env cd db2 fs0).archivedPath) ∧
    (∀ d : Date, kind ≠ .other → dl = true →
      (process_image (tempDownloadName uid msgId
          (if kind = .photo then ".jpg".toList else ".pdf".toList)) uid env
        (tempDownloadName uid msgId
          (if kind = .photo then ".jpg".toList else ".pdf".toList) ::
          fs0)).1.success = true →
      (process_image (tempDownloadName uid msgId
          (if kind = .photo then ".jpg".toList else ".pdf".toList)) uid env
        (tempDownloadName uid msgId
          (if kind = .photo then ".jpg".toList else ".pdf".toList) ::
          fs0)).1.receipt_date = some d →
      ((process_payment_receipt uid msgId kind dl env cd db fs0).state =
          ShopState.orderPaid ↔ d = cd) ∧
      (d ≠ cd →
        (process_payment_receipt uid msgId kind dl env cd db fs0).reply =
          dateMismatchMsg ∧
        (process_payment_receipt uid msgId kind dl env cd db fs0).state =
          ShopState.waitingForReceipt)) := by
  constructor
  · cases kind with
    | other => exact ⟨rfl, rfl, rfl, rfl⟩
    | photo =>
      cases dl with
      | false => exact ⟨rfl, rfl, rfl, rfl⟩
      | true =>
        unfold process_payment_receipt
        dsimp only
        rw [if_pos (rfl : AttachmentKind.photo = AttachmentKind.photo)]
        rw [if_neg (by decide : ¬((!true) = true))]
        split
        · exact ⟨rfl, rfl, rfl, rfl⟩
        · split <;> exact ⟨rfl, rfl, rfl, rfl⟩
    | pdfDocument =>
      cases dl with
      | false => exact ⟨rfl, rfl, rfl, rfl⟩
      | true =>
        unfold process_payment_receipt
        dsimp only
        rw [if_neg (by decide :
          ¬(AttachmentKind.pdfDocument = AttachmentKind.photo))]
        rw [if_neg (by decide : ¬((!true) = true))]
        split
        · exact ⟨rfl, rfl, rfl, rfl⟩
        · split <;> exact ⟨rfl, rfl, rfl, rfl⟩
  · intro d hk hdl hs hd
    subst hdl
    cases kind with
    | other => exact absurd rfl hk
    | photo =>
      rw [if_pos (rfl : AttachmentKind.photo = AttachmentKind.photo)] at hs hd
      unfold process_payment_receipt
      dsimp only
      rw [if_pos (rfl : AttachmentKind.photo = AttachmentKind.photo)]
      rw [hs]
      rw [if_neg (by decide : ¬((!true) = true))]
      rw [hd]
      by_cases hdc : d = cd
      · subst hdc
        rw [if_neg (by simp : ¬(some d ≠ some d))]
        exact ⟨⟨fun _ => rfl, fun _ => rfl⟩, fun hne => absurd rfl hne⟩
      · rw [if_pos (fun h => hdc (Option.some.inj h) : some d ≠ some cd)]
        exact ⟨⟨(fun h => by cases h), fun h => absurd h hdc⟩,
          fun _ => ⟨rfl, rfl⟩⟩
    | pdfDocument =>
      rw [if_neg (by decide :
        ¬(AttachmentKind.pdfDocument = AttachmentKind.photo))] at hs hd
      unfold process_payment_receipt
      dsimp only
      rw [if_neg (by decide :
        ¬(AttachmentKind.pdfDocument = AttachmentKind.photo))]
      rw [hs]
      rw [if_neg (by decide : ¬((!true) = true))]
      rw [hd]
      by_cases hdc : d = cd
      · subst hdc
        rw [if_neg (by simp : ¬(some d ≠ some d))]
        exact ⟨⟨fun _ => rfl, fun _ => rfl⟩, fun hne => absurd rfl hne⟩
      · rw [if_pos (fun h => hdc (Option.some.inj h) : some d ≠ some cd)]
        exact ⟨⟨(fun h => by cases h), fun h => absurd h hdc⟩,
          fun _ => ⟨rfl, rfl⟩⟩

/-- C1 (witness): the date rule at a concrete accepted run whose extracted
date equals the current date. -/
theorem shop_date_rule_witness :
    ((process_payment_receipt 7 1 .photo true happyEnv ⟨15, 3, 2024⟩
        ⟨⟨14, 3, 2024⟩, "pending".toList⟩ []).state = ShopState.orderPaid ↔
      (⟨15, 3, 2024⟩ : Date) = ⟨15, 3, 2024⟩) ∧
    ((⟨15, 3, 2024⟩ : Date) ≠ ⟨15, 3, 2024⟩ →
      (process_payment_receipt 7 1 .photo true happyEnv ⟨15, 3, 2024⟩
        ⟨⟨14, 3, 2024⟩, "pending".toList⟩ []).reply = dateMismatchMsg ∧
      (process_payment_receipt 7 1 .photo true happyEnv ⟨15, 3, 2024⟩
        ⟨⟨14, 3, 2024⟩, "pending".toList⟩ []).state =
          ShopState.waitingForReceipt) :=
  (shop_date_rule 7 1 .photo true happyEnv ⟨15, 3, 2024⟩
      ⟨⟨14, 3, 2024⟩, "pending".toList⟩ ⟨⟨1, 1, 2000⟩, "pending".toList⟩ []).2
    ⟨15, 3, 2024⟩ (by decide) rfl (by decide) (by decide)

/-! ## Claim C4 — classifier-reply parsing -/

/-- C4 (counterexample): the claim says every reply lacking a `|`
delimiter yields verdict `false`; but the reply `true`, which contains no
delimiter, yields verdict `true` in `is_receipt`. -/
theorem pipeless_true_reply_accepted :
    ('|' ∉ "true".toList) ∧ is_receipt (.ok "true".toList) = true := by
  decide

/-- C4 (amended): the validity reply is stripped, lower-cased and split on
`|`; the verdict is `true` exactly when the text before the first `|` is
literally `true`; a reply containing no delimiter yields reason `None` and
verdict `true` exactly when the whole normalized reply is literally
`true` — parsing never raises. -/
theorem receipt_reply_parsing (reply : Str) (hnd : '|' ∉ reply) :
    (parseReceiptReply reply).2 = none ∧
    ((parseReceiptReply reply).1 = true ↔
      pyLower (pyStrip reply) = "true".toList) := by
  have hstrip : '|' ∉ pyStrip reply := fun h => hnd (mem_of_mem_pyStrip h)
  have hlow : '|' ∉ pyLower (pyStrip reply) :=
    fun h => hstrip (pipe_mem_of_mem_pyLower h)
  simp only [parseReceiptReply]
  rw [pySplit_of_no_sep hlow]
  simp

/-- C4 (witness): the amended theorem applied to the delimiter-free reply
`maybe`. -/
theorem receipt_reply_parsing_witness :
    (parseReceiptReply "maybe".toList).2 = none ∧
    ((parseReceiptReply "maybe".toList).1 = true ↔
      pyLower (pyStrip "maybe".toList) = "true".toList) :=
  receipt_reply_parsing "maybe".toList (by decide)

/-! ## Claim C3 — rejection on invalid receipt -/

/-- C3 (counterexample): when the classifier replies
`false|реквизиты ИП не найдены в тексте чека`, the pipeline's message is
the fixed string, not the classifier-supplied reason. -/
theorem invalid_receipt_fixed_message :
    analyze_receipt (.ok "false|реквизиты ИП не найдены в тексте чека".toList)
        (.ok "15.03.2024".toList) =
      (false, none, "Отправленный документ не является платежным чеком".toList) ∧
    (parseReceiptReply "false|реквизиты ИП не найдены в тексте чека".toList).2 =
      some "реквизиты ип не найдены в тексте чека".toList ∧
    "Отправленный документ не является платежным чеком".toList ≠
      "реквизиты ип не найдены в тексте чека".toList := by
  decide

/-- C3 (amended): when the validity check returns false the outcome is a
rejection carrying the fixed message
`Отправленный документ не является платежным чеком` (the classifier's
reason is only logged), and the date-extraction call is never made. -/
theorem invalid_receipt_short_circuit (v d : Call Str)
    (h : is_receipt v = false) :
    analyze_receipt v d =
      (false, none, "Отправленный документ не является платежным чеком".toList) ∧
    ClassifierCall.dateExtraction ∉ (analyze_receipt_traced v d).2 := by
  unfold analyze_receipt analyze_receipt_traced
  rw [h]
  simp

/-- C3 (witness): the short-circuit theorem at a concrete rejecting
reply. -/
theorem invalid_receipt_short_circuit_witness :
    analyze_receipt (.ok "false|нет реквизитов".toList) (.ok "01.01.2024".toList) =
      (false, none, "Отправленный документ не является платежным чеком".toList) ∧
    ClassifierCall.dateExtraction ∉
      (analyze_receipt_traced (.ok "false|нет реквизитов".toList)
        (.ok "01.01.2024".toList)).2 :=
  invalid_receipt_short_circuit _ _ (by decide)

/-! ## Claim C7 — email dispatch failure semantics -/

/-- C7 (counterexample): the claim says no exception is raised past the
dispatcher boundary; but `send_email_notification`
(shop/notifications.py) raises `Failed to send email` when the underlying
send reports a missing credential, instead of returning a boolean. -/
theorem notification_wrapper_raises :
    send_email_notification false true (some "заказ".toList) none =
      .error "Failed to send email".toList := by
  rfl

/-- C7 (amended): the low-level `send_email` fails closed — with the SMTP
password unset, or with the transport failing, every call returns `False`
(and, being a total function, never raises); the shop-level wrapper
`send_email_notification`, however, converts such a `False` into a raised
exception. -/
theorem send_email_fails_closed (passwordSet smtpOk : Bool)
    (textContent htmlContent : Option Str)
    (h : passwordSet = false ∨ smtpOk = false) :
    send_email passwordSet smtpOk textContent htmlContent = false := by
  unfold send_email
  rcases h with h | h <;> subst h
  · simp
  · cases passwordSet <;> simp

/-- C7 (witness): `send_email` at a concrete call with the password
unset. -/
theorem send_email_fails_closed_witness :
    send_email false true (some "текст".toList) none = false :=
  send_email_fails_closed false true (some "текст".toList) none (Or.inl rfl)

/-! ## Claim C5 — OCR exception handling -/

/-- C5 (counterexample): the claim says an OCR-engine exception is treated
like an empty result and falls through to the generic-locale retry; but in
`process_image` (image_processor.py lines 225‑229) the Russian-locale OCR
call is not individually guarded, so its exception reaches the outer
handler and the run rejects with `Ошибка обработки файла: …` — even in an
environment whose generic OCR would have produced usable text. -/
theorem process_image_ocr_exception_no_retry :
    (process_image "r.jpg".toList 7
        { happyEnv with
            ocrRus := .error "tesseract crashed".toList
            ocrGeneric := .ok "Чек ИП Курников А.В. 500 RUB 15.03.2024".toList }
        ["r.jpg".toList]).1 =
      ⟨false, none, none,
        "Ошибка обработки файла: tesseract crashed".toList⟩ := by
  decide

/-- C5 (amended): in `process_receipt` (receipt_processor.py) an exception
from the Russian-locale OCR attempt is caught and answered by the
generic-locale call, and empty text after both attempts is returned as a
`success=False` value rather than raised; in `process_image`
(image_processor.py) the same exception instead reaches the outer handler
and rejects the run without the generic retry. -/
theorem ocr_exception_retry_semantics :
    (∀ (e : Str) (ocrGen1 ocrGen2 : Call Str),
      process_receipt_ocr (.error e) ocrGen1 ocrGen2 = ocrGen1) ∧
    (∀ text : Str, (pyStrip text).isEmpty →
      process_receipt_textOutcome text =
        some "Не удалось распознать текст на изображении".toList) ∧
    (∀ (imagePath : Str) (uid : Nat) (env : PipelineEnv) (fs : Fs)
        (tempDir tempImg : Option Str) (e : Str),
      env.imgNormalize = .ok () → env.ocrRus = .error e →
      (process_image_afterOpen imagePath uid env fs tempDir tempImg).outcome =
        rejectWith ("Ошибка обработки файла: ".toList ++ e)) := by
  refine ⟨fun e g1 g2 => rfl, fun text h => ?_, fun p uid env fs td ti e hn hr => ?_⟩
  · unfold process_receipt_textOutcome
    rw [if_pos h]
  · unfold process_image_afterOpen
    rw [hn, hr]
    rfl

/-- C5 (witness): the amended theorem's conditional parts at concrete
inputs. -/
theorem ocr_exception_retry_semantics_witness :
    process_receipt_textOutcome "  ".toList =
      some "Не удалось распознать текст на изображении".toList ∧
    (process_image_afterOpen "r.jpg".toList 7
        { happyEnv with ocrRus := .error "boom".toList } [] none none).outcome =
      rejectWith ("Ошибка обработки файла: ".toList ++ "boom".toList) :=
  ⟨(ocr_exception_retry_semantics.2.1 "  ".toList (by decide)),
   (ocr_exception_retry_semantics.2.2 "r.jpg".toList 7
      { happyEnv with ocrRus := .error "boom".toList } [] none none
      "boom".toList rfl rfl)⟩

/-! ## Claim C10 — cart quantity invariant -/

lemma cartModifyQty_keys (c : Cart) (pid : Str) (f : Nat → Nat) :
    (cartModifyQty c pid f).map Prod.fst = c.map Prod.fst := by
  unfold cartModifyQty
  rw [List.map_map]
  apply List.map_congr_left
  intro e _
  dsimp
  split <;> rfl

lemma cartGetQty_of_mem {c : Cart} (hnd : (c.map Prod.fst).Nodup)
    {e : Str × CartItem} (he : e ∈ c) : cartGetQty c e.1 = e.2.quantity := by
  induction c with
  | nil => cases he
  | cons h t ih =>
    rw [List.map_cons, List.nodup_cons] at hnd
    rcases List.mem_cons.mp he with rfl | ht
    · unfold cartGetQty
      rw [List.find?_cons_of_pos _ (by simp)]
    · have hne : h.1 ≠ e.1 := by
        intro hc
        exact hnd.1 (hc ▸ List.mem_map.mpr ⟨e, ht, rfl⟩)
      unfold cartGetQty
      rw [List.find?_cons_of_neg _ (by simpa using hne)]
      exact ih hnd.2 ht

lemma cartInv_increase {c : Cart} (hinv : CartInv c) (pid : Str) :
    CartInv (cartModifyQty c pid (fun q => q + 1)) := by
  intro e he
  obtain ⟨e0, he0, heq⟩ := List.mem_map.mp he
  subst heq
  dsimp
  split
  · simp
  · exact hinv e0 he0

lemma cartInv_decrease {c : Cart} (hnd : (c.map Prod.fst).Nodup)
    (hinv : CartInv c) {pid : Str} (hq : 1 < cartGetQty c pid) :
    CartInv (cartModifyQty c pid (fun q => q - 1)) := by
  intro e he
  obtain ⟨e0, he0, heq⟩ := List.mem_map.mp he
  subst heq
  dsimp
  split
  · rename_i hk
    have := cartGetQty_of_mem hnd he0
    rw [hk] at this
    simp only
    omega
  · exact hinv e0 he0

/-- `pySplit` on a decrease callback whose product id has no
underscore. -/
lemma pySplit_cart_decrease (pid : Str) (h : '_' ∉ pid) :
    pySplit '_' ("cart_decrease_".toList ++ pid) =
      ["cart".toList, "decrease".toList, pid] := by
  have h1 : "cart_decrease_".toList ++ pid =
      "cart".toList ++ '_' :: ("decrease".toList ++ '_' :: pid) := rfl
  rw [h1]
  unfold pySplit List.splitOn
  rw [List.splitOnP_first (fun x => x == '_') "cart".toList (by decide) '_' rfl
      ("decrease".toList ++ '_' :: pid),
    List.splitOnP_first (fun x => x == '_') "decrease".toList (by decide) '_' rfl pid]
  have h2 : pid.splitOnP (fun x => x == '_') = [pid] :=
    List.splitOnP_eq_single _ _ (by
      intro x hx
      simp only [beq_iff_eq]
      exact fun he => h (he ▸ hx))
  rw [h2]

/-- C10: every cart operation preserves the invariant that each entry has
quantity at least 1 (the cart is a dictionary: its keys are distinct), and
a decrease request on an entry whose quantity is 1 leaves the cart
unchanged. -/
theorem cart_ops_preserve_invariant (c : Cart) (data : Str)
    (product : Option (Str × Int))
    (hnd : (c.map Prod.fst).Nodup) (hinv : CartInv c) :
    CartInv (process_cart_callback c data) ∧
    CartInv (process_add_to_cart_callback c data product) ∧
    (∀ pid : Str, '_' ∉ pid → cartGetQty c pid ≤ 1 →
      process_cart_callback c ("cart_decrease_".toList ++ pid) = c) := by
  refine ⟨?_, ?_, ?_⟩
  · simp only [process_cart_callback]
    split
    · exact hinv
    · split
      · intro e he; cases he
      · split
        · exact hinv
        · split
          · exact hinv
          · split
            · exact cartInv_increase hinv _
            · split
              · split
                · exact cartInv_decrease hnd hinv (by assumption)
                · exact hinv
              · split
                · intro e he
                  exact hinv e (List.mem_of_mem_filter he)
                · exact hinv
  · simp only [process_add_to_cart_callback]
    cases product with
    | none => exact hinv
    | some p =>
      cases p with
      | mk pname pprice =>
        dsimp
        split
        · exact cartInv_increase hinv _
        · intro e he
          rcases List.mem_append.mp he with hl | hr
          · exact hinv e hl
          · rcases List.mem_singleton.mp hr with rfl
            simp
  · intro pid hput hq
    simp only [process_cart_callback]
    rw [pySplit_cart_decrease pid hput]
    simp +decide [List.get?]
    intro hpe hhas
    omega

/-- C10 (witness): the invariant theorem at a concrete one-item cart and
callback. -/
theorem cart_ops_preserve_invariant_witness :
    CartInv (process_cart_callback sampleCart "cart_increase_5".toList) ∧
    CartInv (process_add_to_cart_callback sampleCart "cart_increase_5".toList
      (some ("Крем".toList, 2500))) ∧
    (∀ pid : Str, '_' ∉ pid → cartGetQty sampleCart pid ≤ 1 →
      process_cart_callback sampleCart ("cart_decrease_".toList ++ pid) =
        sampleCart) :=
  cart_ops_preserve_invariant sampleCart "cart_increase_5".toList
    (some ("Крем".toList, 2500)) (by decide) (by decide)

end ShopBot
